import Mathlib

/-
Verification of the scholarship-portal backend (server.js) against its
specification.  The Express route handlers are shallowly embedded as pure
Lean functions over an explicit database state; the MySQL transaction of
the apply route is modelled by buffered writes that become visible only at
commit, with a failure-injection record selecting which store operation
fails, and an event trace recording connection acquire/begin/insert/
commit/rollback/release in program order.
-/

namespace Scholarship

/-- JavaScript values as they occur in the parsed JSON payload fields
(`JSON.parse(req.body.data)` in server.js). -/
inductive JSVal where
  | null
  | undefined
  | num (n : Int)
  | str (s : String)
deriving DecidableEq

/-- JavaScript truthiness of a payload field, as used by the guards
`if (!user_id || !scheme_id)` and `data.amount_applied || null`. -/
def JSVal.truthy : JSVal → Bool
  | .null => false
  | .undefined => false
  | .num n => decide (n ≠ 0)
  | .str s => decide (s ≠ "")

/-- Row of the `users` table (columns used by server.js). -/
structure UserRow where
  id : Nat
  name : String
  email : String
  password_hash : String
  age : Option Int
  gender : Option String
  role : String
deriving DecidableEq

/-- Row of the `schemes` table (columns used by server.js). -/
structure SchemeRow where
  id : Nat
  scheme_name : String
  scholarship_name : String
  academic_year : String
  type : String
  category : String
  is_international_eligible : Option Bool
  application_deadline : Option Nat
deriving DecidableEq

/-- Row of the `applications` table.  The id columns coming from the JSON
payload are kept as JavaScript values, exactly as the handler passes them
to the INSERT; `application_date` and `status` are the store defaults. -/
structure ApplicationRow where
  id : Nat
  user_id : JSVal
  scheme_id : JSVal
  amount_applied : JSVal
  data_json : String
  status : String
  application_date : Nat
deriving DecidableEq

/-- Row of the `documents` table (columns inserted by the apply route). -/
structure DocumentRow where
  application_id : Nat
  doc_type : String
  filename : String
deriving DecidableEq

/-- The relational store: table contents plus the auto-increment counters
and the store clock used for `application_date` defaults. -/
structure DB where
  users : List UserRow
  schemes : List SchemeRow
  applications : List ApplicationRow
  documents : List DocumentRow
  nextUserId : Nat
  nextAppId : Nat
  now : Nat
deriving DecidableEq

/-- Body of POST /api/register; absent JSON fields are `none`.  The
`Number(age)` coercion of the source is elided: `age` is taken already
numeric-or-absent. -/
structure RegisterInput where
  name : Option String
  email : Option String
  password : Option String
  age : Option Int
  gender : Option String
deriving DecidableEq

/-- JavaScript truthiness of an optional string field (`!name` rejects
both an absent field and the empty string). -/
def strTruthy : Option String → Bool
  | none => false
  | some s => decide (s ≠ "")

/-- A query parameter as seen through a JS truthiness guard `if (x)`:
absent and empty-string both behave as absent. -/
def truthyStr : Option String → Option String
  | none => none
  | some s => if s = "" then none else some s

/-- Responses of POST /api/register. -/
inductive RegisterResp where
  | ok (userId : Nat)
  | badRequest
  | conflict
deriving DecidableEq

/-- Embeds the POST /api/register handler (server.js lines 106-147):
400 when a required field is missing, 409 when the email already exists,
otherwise insert the row (role defaults to "user") and return the new id.
The password hasher is the external bcrypt collaborator, passed in. -/
def apiRegister (hash : String → String) (db : DB) (inp : RegisterInput) :
    RegisterResp × DB :=
  if !(strTruthy inp.name && strTruthy inp.email && strTruthy inp.password) then
    (.badRequest, db)
  else if db.users.any (fun u => decide (u.email = inp.email.getD "")) then
    (.conflict, db)
  else
    let validatedAge : Option Int := inp.age
    let validatedGender : Option String :=
      match inp.gender with
      | some s => if s = "" then none else some s
      | none => none
    let row : UserRow :=
      { id := db.nextUserId
        name := inp.name.getD ""
        email := inp.email.getD ""
        password_hash := hash (inp.password.getD "")
        age := validatedAge
        gender := validatedGender
        role := "user" }
    (.ok db.nextUserId,
     { db with users := db.users ++ [row], nextUserId := db.nextUserId + 1 })

/-- Query parameters of GET /api/schemes. -/
structure SchemesParams where
  q : Option String
  academic_year : Option String
  type : Option String
  category : Option String
  international : Option String
deriving DecidableEq

/-- Character-list infix test, the meaning of SQL `LIKE CONCAT(percent, q, percent)`. -/
def infixOf : List Char → List Char → Bool
  | n, [] => n.isPrefixOf []
  | n, h :: t => n.isPrefixOf (h :: t) || infixOf n t

/-- Substring containment used by the q filter (`scheme_name LIKE ?` with
a percent-wrapped needle). -/
def likeContains (needle hay : String) : Bool :=
  infixOf needle.toList hay.toList

/-- JavaScript `category.split(Char)` on a comma: splits on every comma,
keeping empty pieces, and yields one empty piece for the empty string. -/
def splitCommaAux : List Char → List Char → List String
  | [], acc => [String.mk acc.reverse]
  | c :: t, acc =>
    if c = ',' then String.mk acc.reverse :: splitCommaAux t []
    else splitCommaAux t (c :: acc)

/-- JavaScript split on comma, as in `category.split(',')`. -/
def splitComma (s : String) : List String := splitCommaAux s.toList []

/-- JavaScript `s.trim()`: strip whitespace from both ends. -/
def jsTrim (s : String) : String :=
  String.mk (((s.toList.dropWhile Char.isWhitespace).reverse.dropWhile
    Char.isWhitespace).reverse)

/-- Clause pushed by `if (q)` : substring match on either display name. -/
def qMatch (qp : Option String) (s : SchemeRow) : Bool :=
  match truthyStr qp with
  | some qs => likeContains qs s.scheme_name || likeContains qs s.scholarship_name
  | none => true

/-- Clause pushed by `if (academic_year)` : exact equality. -/
def yearMatch (yp : Option String) (s : SchemeRow) : Bool :=
  match truthyStr yp with
  | some y => decide (s.academic_year = y)
  | none => true

/-- Clause pushed by `if (type)` : exact equality. -/
def typeMatch (tp : Option String) (s : SchemeRow) : Bool :=
  match truthyStr tp with
  | some t => decide (s.type = t)
  | none => true

/-- Clause pushed by `if (category)` : split the parameter on commas, trim
each piece, and require `category IN (...)` over the pieces. -/
def categoryMatch (cp : Option String) (s : SchemeRow) : Bool :=
  match truthyStr cp with
  | some c => ((splitComma c).map jsTrim).any (fun cat => decide (s.category = cat))
  | none => true

/-- Clause pushed by `if (international === '1')` : the eligibility flag
must be SQL-equal to 1, which excludes both false and NULL. -/
def internationalMatch (ip : Option String) (s : SchemeRow) : Bool :=
  if ip = some "1" then decide (s.is_international_eligible = some true) else true

/-- Conjunction of all pushed WHERE clauses of GET /api/schemes. -/
def matchesSchemeFilters (ps : SchemesParams) (s : SchemeRow) : Bool :=
  qMatch ps.q s && yearMatch ps.academic_year s && typeMatch ps.type s &&
    categoryMatch ps.category s && internationalMatch ps.international s

/-- The sort order `ORDER BY application_deadline IS NULL, application_deadline`:
rows with a deadline come first in ascending order, NULL deadlines last. -/
def deadlineOrder (a b : SchemeRow) : Prop :=
  match a.application_deadline, b.application_deadline with
  | none, none => True
  | none, some _ => False
  | some _, none => True
  | some x, some y => x ≤ y

instance : DecidableRel deadlineOrder := fun a b => by
  unfold deadlineOrder
  match a.application_deadline, b.application_deadline with
  | none, none => exact inferInstanceAs (Decidable True)
  | none, some _ => exact inferInstanceAs (Decidable False)
  | some _, none => exact inferInstanceAs (Decidable True)
  | some _, some _ => exact inferInstanceAs (Decidable (_ ≤ _))

instance : IsTotal SchemeRow deadlineOrder := by
  constructor
  intro a b
  unfold deadlineOrder
  rcases a.application_deadline with _ | x <;> rcases b.application_deadline with _ | y <;>
    simp [Nat.le_total]

instance : IsTrans SchemeRow deadlineOrder := by
  constructor
  intro a b c
  unfold deadlineOrder
  rcases a.application_deadline with _ | x <;> rcases b.application_deadline with _ | y <;>
    rcases c.application_deadline with _ | z <;> simp
  omega

/-- Responses of GET /api/schemes. -/
inductive SchemesResp where
  | ok (schemes : List SchemeRow)
  | serverError
deriving DecidableEq

/-- The values pushed onto the params array by the q, academic_year, type
and category guards (server.js lines 170-177); the international guard
inlines its clause and pushes none. -/
def schemesParamsList (ps : SchemesParams) : List String :=
  (match truthyStr ps.q with
   | some qs => ["%" ++ qs ++ "%", "%" ++ qs ++ "%"]
   | none => []) ++
  (match truthyStr ps.academic_year with
   | some y => [y]
   | none => []) ++
  (match truthyStr ps.type with
   | some t => [t]
   | none => []) ++
  (match truthyStr ps.category with
   | some c => (splitComma c).map jsTrim
   | none => [])

/-- Embeds the GET /api/schemes handler (server.js lines 165-183),
including the defect at line 180: allSql is called without the params
array, so its default empty array leaves every pushed ? placeholder
unbound, the store rejects the query, and the catch answers 500.  Only a
request that pushes no placeholder — no filters at all, or the
international filter alone, whose clause is inlined without a
placeholder — reaches the result path, which filters by the pushed
clauses and sorts by the deadline order. -/
def apiSchemes (db : DB) (ps : SchemesParams) : SchemesResp :=
  if schemesParamsList ps ≠ [] then .serverError
  else .ok (List.insertionSort deadlineOrder (db.schemes.filter (matchesSchemeFilters ps)))

/-- The parsed `data` payload of POST /api/apply: the fields the handler
reads, plus `JSON.stringify(data)` of the whole payload. -/
structure Payload where
  user_id : JSVal
  scheme_id : JSVal
  amount_applied : JSVal
  serialized : String
deriving DecidableEq

/-- Outcome of `JSON.parse` on the `data` form field: either a parse
failure (the handler's catch block fires) or a parsed payload. -/
inductive JsonData where
  | malformed
  | parsed (p : Payload)
deriving DecidableEq

/-- A multer upload: the multipart field name, the store-assigned filename
under `uploads/`, and the client's original file name (never inserted). -/
structure UploadedFile where
  fieldname : String
  filename : String
  originalname : String
deriving DecidableEq

/-- Shape of `req.files` under `upload.fields` with names photo and
mark10, each `maxCount: 1`. -/
structure ApplyFiles where
  photo : Option UploadedFile
  mark10 : Option UploadedFile
deriving DecidableEq

/-- A POST /api/apply request: the raw `data` field (absent, malformed, or
parsed) and the optional `req.files` object. -/
structure ApplyReq where
  data : Option JsonData
  files : Option ApplyFiles
deriving DecidableEq

/-- Failure injection for the store operations of the apply transaction:
each flag makes the corresponding store call throw. -/
structure FailSpec where
  failGetConnection : Bool
  failBeginTransaction : Bool
  failInsertApplication : Bool
  failInsertPhotoDoc : Bool
  failInsertMark10Doc : Bool
  failCommit : Bool
deriving DecidableEq

/-- No store call fails. -/
def FailSpec.noFail : FailSpec := ⟨false, false, false, false, false, false⟩

/-- Connection-level events of the apply route, in program order. -/
inductive Ev where
  | acquire
  | beginTx
  | insertApplication
  | insertDocument
  | commit
  | rollback
  | release
deriving DecidableEq

/-- Responses of POST /api/apply. -/
inductive ApplyResp where
  | ok (applicationId : Nat)
  | badRequest
  | serverError
deriving DecidableEq

/-- Whether the response is the success acknowledgment. -/
def ApplyResp.isSuccess : ApplyResp → Bool
  | .ok _ => true
  | _ => false

/-- Result of one apply-route execution: the HTTP response, the visible
store state after the request, and the connection event trace. -/
structure ApplyResult where
  resp : ApplyResp
  db : DB
  trace : List Ev
deriving DecidableEq

/-- The photo entry of `req.files`, when present. -/
def photoFile : Option ApplyFiles → Option UploadedFile
  | none => none
  | some fs => fs.photo

/-- The mark10 entry of `req.files`, when present. -/
def mark10File : Option ApplyFiles → Option UploadedFile
  | none => none
  | some fs => fs.mark10

/-- The applications row inserted by the apply route: payload ids passed
through, `data.amount_applied || null`, the serialized payload, and the
store defaults for status and date. -/
def mkApplicationRow (db : DB) (p : Payload) : ApplicationRow :=
  { id := db.nextAppId
    user_id := p.user_id
    scheme_id := p.scheme_id
    amount_applied := if p.amount_applied.truthy then p.amount_applied else JSVal.null
    data_json := p.serialized
    status := "Pending"
    application_date := db.now }

/-- The documents row inserted for one upload: `f.fieldname` as doc_type
and the store-assigned `f.filename`. -/
def mkDocumentRow (appId : Nat) (f : UploadedFile) : DocumentRow :=
  { application_id := appId, doc_type := f.fieldname, filename := f.filename }

/-- All documents rows a fully successful apply inserts: the photo row if
a photo upload is present, then the mark10 row if present. -/
def applyDocs (files : Option ApplyFiles) (appId : Nat) : List DocumentRow :=
  ((photoFile files).map (mkDocumentRow appId)).toList ++
    ((mark10File files).map (mkDocumentRow appId)).toList

/-- The insertDocument events a fully successful apply emits. -/
def docEvents (files : Option ApplyFiles) : List Ev :=
  ((photoFile files).map (fun _ => Ev.insertDocument)).toList ++
    ((mark10File files).map (fun _ => Ev.insertDocument)).toList

/-- The payload used when `req.body.data` is absent: the handler falls
back to the empty object, whose fields are all undefined. -/
def emptyPayload : Payload :=
  { user_id := .undefined
    scheme_id := .undefined
    amount_applied := .undefined
    serialized := "\x7b\x7d" }

/-- Embeds the body of the POST /api/apply handler after JSON parsing
(server.js lines 205-229).  The branches follow the source in program
order: the 400 guard, then getConnection, beginTransaction, the
applications insert, the conditional documents inserts, and commit; the
first injected failure jumps to the catch block, which rolls the
transaction back (so the initial store state stays visible) and the
finally block releases the connection.  Writes become visible only on
commit. -/
def applyCore (db : DB) (p : Payload) (files : Option ApplyFiles) (fs : FailSpec) :
    ApplyResult :=
  if !(p.user_id.truthy && p.scheme_id.truthy) then
    { resp := .badRequest, db := db, trace := [] }
  else if fs.failGetConnection then
    { resp := .serverError, db := db, trace := [] }
  else if fs.failBeginTransaction then
    { resp := .serverError, db := db, trace := [Ev.acquire, Ev.rollback, Ev.release] }
  else if fs.failInsertApplication then
    { resp := .serverError, db := db,
      trace := [Ev.acquire, Ev.beginTx, Ev.rollback, Ev.release] }
  else if (photoFile files).isSome && fs.failInsertPhotoDoc then
    { resp := .serverError, db := db,
      trace := [Ev.acquire, Ev.beginTx, Ev.insertApplication, Ev.rollback, Ev.release] }
  else if (mark10File files).isSome && fs.failInsertMark10Doc then
    { resp := .serverError, db := db,
      trace := [Ev.acquire, Ev.beginTx, Ev.insertApplication] ++
        ((photoFile files).map (fun _ => Ev.insertDocument)).toList ++
        [Ev.rollback, Ev.release] }
  else if fs.failCommit then
    { resp := .serverError, db := db,
      trace := [Ev.acquire, Ev.beginTx, Ev.insertApplication] ++ docEvents files ++
        [Ev.rollback, Ev.release] }
  else
    { resp := .ok db.nextAppId
      db := { db with
        applications := db.applications ++ [mkApplicationRow db p]
        documents := db.documents ++ applyDocs files db.nextAppId
        nextAppId := db.nextAppId + 1 }
      trace := [Ev.acquire, Ev.beginTx, Ev.insertApplication] ++ docEvents files ++
        [Ev.commit, Ev.release] }

/-- Embeds the full POST /api/apply handler (server.js lines 201-230):
`JSON.parse` of the `data` field first (a parse failure is caught before
any connection exists, so the trace is empty and nothing is written), with
the missing field defaulting to the empty object. -/
def apiApply (db : DB) (req : ApplyReq) (fs : FailSpec) : ApplyResult :=
  match req.data with
  | some JsonData.malformed => { resp := .serverError, db := db, trace := [] }
  | some (JsonData.parsed p) => applyCore db p req.files fs
  | none => applyCore db emptyPayload req.files fs

/-- Responses of the admin approve/reject routes. -/
inductive AdminResp where
  | ok (message : String)
  | serverError
deriving DecidableEq

/-- Effect of `UPDATE applications SET status=? WHERE id=?` on one row. -/
def setStatusRow (id : Nat) (st : String) (a : ApplicationRow) : ApplicationRow :=
  if a.id = id then { a with status := st } else a

/-- Embeds POST /api/admin/application/:id/approve (server.js lines
278-284): one unconditional UPDATE, then a fixed success body. -/
def apiApprove (db : DB) (id : Nat) : AdminResp × DB :=
  (.ok "Trigger fired (if status changed)",
   { db with applications := db.applications.map (setStatusRow id "Approved") })

/-- Embeds POST /api/admin/application/:id/reject (server.js lines
286-292). -/
def apiReject (db : DB) (id : Nat) : AdminResp × DB :=
  (.ok "Trigger fired (if status changed)",
   { db with applications := db.applications.map (setStatusRow id "Rejected") })

/-- One row of the admin applications view: the application joined with
its owner's display name/email and its scheme's display name. -/
structure AdminViewRow where
  application_id : Nat
  status : String
  application_date : Nat
  user_name : Option String
  user_email : Option String
  scheme_name : Option String
deriving DecidableEq

/-- The joined row the view derives from one application. -/
def adminViewRowOf (db : DB) (a : ApplicationRow) : AdminViewRow :=
  { application_id := a.id
    status := a.status
    application_date := a.application_date
    user_name := (db.users.find? (fun u => decide (a.user_id = JSVal.num u.id))).map
      (fun u => u.name)
    user_email := (db.users.find? (fun u => decide (a.user_id = JSVal.num u.id))).map
      (fun u => u.email)
    scheme_name := (db.schemes.find? (fun s => decide (a.scheme_id = JSVal.num s.id))).map
      (fun s => s.scheme_name) }

/-- Ascending submission-timestamp order on view rows. -/
def dateOrder (a b : AdminViewRow) : Prop :=
  a.application_date ≤ b.application_date

instance : DecidableRel dateOrder := fun a b =>
  inferInstanceAs (Decidable (a.application_date ≤ b.application_date))

instance : IsTotal AdminViewRow dateOrder :=
  ⟨fun a b => Nat.le_total a.application_date b.application_date⟩

instance : IsTrans AdminViewRow dateOrder :=
  ⟨fun _ _ _ hab hbc => Nat.le_trans hab hbc⟩

/-- Modelled from the spec: the database view `v_admin_applications` lives
in the MySQL schema, which is not part of src/ (server.js only selects
from it).  Per the spec's admin pending-list contract it presents every
application joined with the owning user's display name/email and the
scheme's display name, oldest submission first. -/
def v_admin_applications (db : DB) : List AdminViewRow :=
  List.insertionSort dateOrder (db.applications.map (adminViewRowOf db))

/-- Embeds GET /api/admin/pending-applications (server.js lines 270-275):
select the view rows whose status is Pending. -/
def apiAdminPendingApplications (db : DB) : List AdminViewRow :=
  (v_admin_applications db).filter (fun r => decide (r.status = "Pending"))

/-- An empty store, auto-increment counters at 1. -/
def dbEmpty : DB :=
  { users := [], schemes := [], applications := [], documents := [],
    nextUserId := 1, nextAppId := 1, now := 0 }

/-- A photo upload with distinct stored and original names. -/
def filePhotoW : UploadedFile :=
  { fieldname := "photo", filename := "abc123hash", originalname := "me.png" }

/-- A mark-sheet upload with distinct stored and original names. -/
def fileMark10W : UploadedFile :=
  { fieldname := "mark10", filename := "def456hash", originalname := "marks.pdf" }

/-- A well-formed payload with both references and a positive amount. -/
def payloadFull : Payload :=
  { user_id := JSVal.num 1, scheme_id := JSVal.num 2,
    amount_applied := JSVal.num 5000, serialized := "full-payload-json" }

/-- A well-formed apply request carrying only a photo upload. -/
def reqFull : ApplyReq :=
  { data := some (JsonData.parsed payloadFull),
    files := some { photo := some filePhotoW, mark10 := none } }

/-- A well-formed apply request carrying both uploads. -/
def reqBoth : ApplyReq :=
  { data := some (JsonData.parsed payloadFull),
    files := some { photo := some filePhotoW, mark10 := some fileMark10W } }

/-- Failure injection: the photo documents insert throws. -/
def failPhotoSpec : FailSpec := { FailSpec.noFail with failInsertPhotoDoc := true }

/-- Failure injection: the commit throws. -/
def failCommitSpec : FailSpec := { FailSpec.noFail with failCommit := true }

/-- An apply request whose data field does not parse as JSON. -/
def reqMalformed : ApplyReq := { data := some JsonData.malformed, files := none }

/-- A payload with no user reference. -/
def payloadNoUser : Payload :=
  { user_id := JSVal.undefined, scheme_id := JSVal.num 2,
    amount_applied := JSVal.null, serialized := "no-user-json" }

/-- An apply request whose payload lacks the user reference. -/
def reqNoUser : ApplyReq :=
  { data := some (JsonData.parsed payloadNoUser), files := none }

/-- A payload whose amount_applied is the number 0. -/
def payloadAmount0 : Payload :=
  { user_id := JSVal.num 1, scheme_id := JSVal.num 2,
    amount_applied := JSVal.num 0, serialized := "amount-zero-json" }

/-- An apply request with amount_applied equal to 0 and no uploads. -/
def reqAmount0 : ApplyReq :=
  { data := some (JsonData.parsed payloadAmount0), files := none }

/-- A scheme of category A used by the category-filter witness. -/
def schemeCatA : SchemeRow :=
  { id := 1, scheme_name := "SchemeOne", scholarship_name := "AwardOne",
    academic_year := "2024", type := "merit", category := "A",
    is_international_eligible := some true, application_deadline := some 10 }

/-- A store holding just the category-A scheme. -/
def dbSchemes : DB := { dbEmpty with schemes := [schemeCatA] }

/-- A complete registration input. -/
def regInput1 : RegisterInput :=
  { name := some "Asha", email := some "asha@example.com",
    password := some "secret-pw", age := none, gender := none }

/-- A later registration attempt reusing the email but missing the
password. -/
def regInput2 : RegisterInput :=
  { name := some "Bee", email := some "asha@example.com",
    password := none, age := none, gender := none }

/-- A concrete stand-in for the external password hasher. -/
def hashId : String → String := fun s => s

/-- The store after the first successful registration. -/
def dbAfterFirst : DB := (apiRegister hashId dbEmpty regInput1).2

/-- All three required registration fields are present and non-empty. -/
def requiredPresent (inp : RegisterInput) : Bool :=
  strTruthy inp.name && strTruthy inp.email && strTruthy inp.password

/-- Any non-success outcome of the transaction body leaves the visible
store unchanged: every failing branch answers with the initial state. -/
theorem applyCore_db_of_not_ok (db : DB) (p : Payload) (files : Option ApplyFiles)
    (fs : FailSpec) (h : (applyCore db p files fs).resp.isSuccess = false) :
    (applyCore db p files fs).db = db := by
  unfold applyCore at *
  split_ifs at * <;> simp_all [ApplyResp.isSuccess]

/-- A success outcome comes from the commit branch, so the new application
row and all its document rows are appended to the store. -/
theorem applyCore_ok_eq (db : DB) (p : Payload) (files : Option ApplyFiles)
    (fs : FailSpec) (h : (applyCore db p files fs).resp.isSuccess = true) :
    (applyCore db p files fs).resp = ApplyResp.ok db.nextAppId ∧
    (applyCore db p files fs).db.applications = db.applications ++ [mkApplicationRow db p] ∧
    (applyCore db p files fs).db.documents = db.documents ++ applyDocs files db.nextAppId := by
  unfold applyCore at *
  split_ifs at * <;> simp_all [ApplyResp.isSuccess]

/-- With the empty fallback payload the 400 guard always fires. -/
theorem applyCore_empty (db : DB) (files : Option ApplyFiles) (fs : FailSpec) :
    applyCore db emptyPayload files fs =
      { resp := ApplyResp.badRequest, db := db, trace := [] } := by
  simp [applyCore, emptyPayload, JSVal.truthy]

/-- Claim C1: apply is atomic. If any step after the applications insert
fails, the visible store afterwards holds no row from the attempt; if the
operation succeeds, the application row and all its document rows are
visible. -/
theorem apply_atomic (db : DB) (req : ApplyReq) (fs : FailSpec) :
    (Ev.insertApplication ∈ (apiApply db req fs).trace →
      (apiApply db req fs).resp.isSuccess = false →
      (apiApply db req fs).db = db) ∧
    ((apiApply db req fs).resp.isSuccess = true →
      ∃ p, req.data = some (JsonData.parsed p) ∧
        (apiApply db req fs).db.applications = db.applications ++ [mkApplicationRow db p] ∧
        (apiApply db req fs).db.documents = db.documents ++ applyDocs req.files db.nextAppId) := by
  obtain ⟨data, files⟩ := req
  rcases data with _ | jd
  · constructor
    · intro _ hfail
      exact applyCore_db_of_not_ok db emptyPayload files fs hfail
    · intro hok
      rw [show apiApply db ⟨none, files⟩ fs = applyCore db emptyPayload files fs from rfl,
        applyCore_empty] at hok
      simp [ApplyResp.isSuccess] at hok
  · rcases jd with _ | p
    · constructor
      · intro hmem _
        simp [apiApply] at hmem
      · intro hok
        simp [apiApply, ApplyResp.isSuccess] at hok
    · constructor
      · intro _ hfail
        exact applyCore_db_of_not_ok db p files fs hfail
      · intro hok
        exact ⟨p, rfl, (applyCore_ok_eq db p files fs hok).2.1,
          (applyCore_ok_eq db p files fs hok).2.2⟩

/-- Witness for C1: with the photo insert failing the store is unchanged,
and with no failure both rows of the attempt are visible. -/
theorem apply_atomic_witness :
    (apiApply dbEmpty reqFull failPhotoSpec).db = dbEmpty ∧
    (∃ p, reqFull.data = some (JsonData.parsed p) ∧
      (apiApply dbEmpty reqFull FailSpec.noFail).db.applications =
        dbEmpty.applications ++ [mkApplicationRow dbEmpty p] ∧
      (apiApply dbEmpty reqFull FailSpec.noFail).db.documents =
        dbEmpty.documents ++ applyDocs reqFull.files dbEmpty.nextAppId) :=
  ⟨(apply_atomic dbEmpty reqFull failPhotoSpec).1 (by decide) (by decide),
   (apply_atomic dbEmpty reqFull FailSpec.noFail).2 (by decide)⟩

/-- Claim C5: a malformed data field is rejected by the catch block before
any connection exists, and a payload lacking the user or scheme reference
(including the absent-data fallback) is answered 400 before any store
access; in each case the trace is empty and the store untouched. -/
theorem apply_validation (db : DB) (req : ApplyReq) (fs : FailSpec) :
    (req.data = some JsonData.malformed →
      apiApply db req fs = { resp := ApplyResp.serverError, db := db, trace := [] }) ∧
    (req.data = none →
      apiApply db req fs = { resp := ApplyResp.badRequest, db := db, trace := [] }) ∧
    (∀ p, req.data = some (JsonData.parsed p) →
      (p.user_id.truthy && p.scheme_id.truthy) = false →
      apiApply db req fs = { resp := ApplyResp.badRequest, db := db, trace := [] }) := by
  obtain ⟨data, files⟩ := req
  refine ⟨?_, ?_, ?_⟩
  · intro h
    simp only at h
    subst h
    rfl
  · intro h
    simp only at h
    subst h
    exact applyCore_empty db files fs
  · intro p hp hfalse
    simp only at hp
    subst hp
    show applyCore db p files fs = _
    unfold applyCore
    rw [hfalse]
    rfl

/-- Witness for C5: the malformed-data request and the missing-reference
request are both rejected with an empty trace on a concrete store. -/
theorem apply_validation_witness :
    apiApply dbEmpty reqMalformed FailSpec.noFail =
      { resp := ApplyResp.serverError, db := dbEmpty, trace := [] } ∧
    apiApply dbEmpty reqNoUser FailSpec.noFail =
      { resp := ApplyResp.badRequest, db := dbEmpty, trace := [] } :=
  ⟨(apply_validation dbEmpty reqMalformed FailSpec.noFail).1 rfl,
   (apply_validation dbEmpty reqNoUser FailSpec.noFail).2.2 payloadNoUser rfl (by decide)⟩

/-- Every branch of the transaction body that acquired the connection
releases it, and every failing such branch rolls back first and leaves
the initial store visible. -/
theorem applyCore_release (db : DB) (p : Payload) (files : Option ApplyFiles)
    (fs : FailSpec) :
    (Ev.acquire ∈ (applyCore db p files fs).trace →
      Ev.release ∈ (applyCore db p files fs).trace) ∧
    (Ev.acquire ∈ (applyCore db p files fs).trace →
      (applyCore db p files fs).resp.isSuccess = false →
      (∃ pre, (applyCore db p files fs).trace = pre ++ [Ev.rollback, Ev.release]) ∧
        (applyCore db p files fs).db = db) := by
  unfold applyCore
  split_ifs <;> constructor <;> intro hmem
  · simp at hmem
  · simp at hmem
  · simp at hmem
  · simp at hmem
  · simp
  · exact fun _ => ⟨⟨[Ev.acquire], rfl⟩, rfl⟩
  · simp
  · exact fun _ => ⟨⟨[Ev.acquire, Ev.beginTx], rfl⟩, rfl⟩
  · simp
  · exact fun _ => ⟨⟨[Ev.acquire, Ev.beginTx, Ev.insertApplication], rfl⟩, rfl⟩
  · simp
  · exact fun _ => ⟨⟨[Ev.acquire, Ev.beginTx, Ev.insertApplication] ++
      ((photoFile files).map (fun _ => Ev.insertDocument)).toList, by simp⟩, rfl⟩
  · simp
  · exact fun _ => ⟨⟨[Ev.acquire, Ev.beginTx, Ev.insertApplication] ++ docEvents files,
      by simp⟩, rfl⟩
  · simp
  · intro hfail
    simp [ApplyResp.isSuccess] at hfail

/-- Claim C9: every apply execution that acquires a connection releases
it, and on failure the rollback precedes the release (the trace ends with
rollback then release) and the initial store stays visible. -/
theorem apply_connection_release (db : DB) (req : ApplyReq) (fs : FailSpec) :
    (Ev.acquire ∈ (apiApply db req fs).trace →
      Ev.release ∈ (apiApply db req fs).trace) ∧
    (Ev.acquire ∈ (apiApply db req fs).trace →
      (apiApply db req fs).resp.isSuccess = false →
      (∃ pre, (apiApply db req fs).trace = pre ++ [Ev.rollback, Ev.release]) ∧
        (apiApply db req fs).db = db) := by
  obtain ⟨data, files⟩ := req
  rcases data with _ | jd
  · exact applyCore_release db emptyPayload files fs
  · rcases jd with _ | p
    · constructor <;> intro hmem <;> simp [apiApply] at hmem
    · exact applyCore_release db p files fs

/-- Witness for C9: with a failing commit on a concrete request the
connection trace ends with rollback then release and the store is
unchanged. -/
theorem apply_connection_release_witness :
    Ev.release ∈ (apiApply dbEmpty reqFull failCommitSpec).trace ∧
    (∃ pre, (apiApply dbEmpty reqFull failCommitSpec).trace =
      pre ++ [Ev.rollback, Ev.release]) ∧
    (apiApply dbEmpty reqFull failCommitSpec).db = dbEmpty :=
  ⟨(apply_connection_release dbEmpty reqFull failCommitSpec).1 (by decide),
   ((apply_connection_release dbEmpty reqFull failCommitSpec).2 (by decide) (by decide)).1,
   ((apply_connection_release dbEmpty reqFull failCommitSpec).2 (by decide) (by decide)).2⟩

/-- At most two document rows arise from one apply request. -/
theorem applyDocs_length (files : Option ApplyFiles) (appId : Nat) :
    (applyDocs files appId).length ≤ 2 := by
  rcases h1 : photoFile files with _ | f1 <;> rcases h2 : mark10File files with _ | f2 <;>
    simp [applyDocs, h1, h2]

/-- Every inserted document row copies its upload's field name into
doc_type and the store-assigned filename into filename. -/
theorem applyDocs_mem (files : Option ApplyFiles) (appId : Nat) :
    ∀ d ∈ applyDocs files appId,
      ∃ f, (photoFile files = some f ∨ mark10File files = some f) ∧
        d.doc_type = f.fieldname ∧ d.filename = f.filename := by
  intro d hd
  rcases h1 : photoFile files with _ | f1 <;> rcases h2 : mark10File files with _ | f2 <;>
    simp [applyDocs, h1, h2] at hd
  · exact ⟨f2, Or.inr rfl, by simp [hd, mkDocumentRow]⟩
  · exact ⟨f1, Or.inl rfl, by simp [hd, mkDocumentRow]⟩
  · rcases hd with hd | hd
    · exact ⟨f1, Or.inl rfl, by simp [hd, mkDocumentRow]⟩
    · exact ⟨f2, Or.inr rfl, by simp [hd, mkDocumentRow]⟩

/-- Under the multer field-name guarantee, at most one photo row and at
most one mark10 row arise from one apply request. -/
theorem applyDocs_countP (files : Option ApplyFiles) (appId : Nat)
    (hp : ∀ f, photoFile files = some f → f.fieldname = "photo")
    (hm : ∀ f, mark10File files = some f → f.fieldname = "mark10") :
    (applyDocs files appId).countP (fun d => decide (d.doc_type = "photo")) ≤ 1 ∧
    (applyDocs files appId).countP (fun d => decide (d.doc_type = "mark10")) ≤ 1 := by
  rcases h1 : photoFile files with _ | f1 <;> rcases h2 : mark10File files with _ | f2 <;>
    simp_all [applyDocs, mkDocumentRow, List.countP_cons]

/-- Claim C10: a successful apply creates at most two document rows —
at most one of doc_type photo and at most one of doc_type mark10 — each
recording its upload's multipart field name as doc_type and the
store-assigned filename. -/
theorem apply_documents_shape (db : DB) (req : ApplyReq) (fs : FailSpec)
    (hok : (apiApply db req fs).resp.isSuccess = true) :
    (apiApply db req fs).db.documents =
      db.documents ++ applyDocs req.files db.nextAppId ∧
    (applyDocs req.files db.nextAppId).length ≤ 2 ∧
    (∀ d ∈ applyDocs req.files db.nextAppId,
      ∃ f, (photoFile req.files = some f ∨ mark10File req.files = some f) ∧
        d.doc_type = f.fieldname ∧ d.filename = f.filename) ∧
    ((∀ f, photoFile req.files = some f → f.fieldname = "photo") →
     (∀ f, mark10File req.files = some f → f.fieldname = "mark10") →
      (applyDocs req.files db.nextAppId).countP
        (fun d => decide (d.doc_type = "photo")) ≤ 1 ∧
      (applyDocs req.files db.nextAppId).countP
        (fun d => decide (d.doc_type = "mark10")) ≤ 1) := by
  refine ⟨?_, applyDocs_length req.files db.nextAppId,
    applyDocs_mem req.files db.nextAppId,
    fun hp hm => applyDocs_countP req.files db.nextAppId hp hm⟩
  obtain ⟨p, _, _, hdocs⟩ := (apply_atomic db req fs).2 hok
  exact hdocs

/-- Witness for C10: a successful apply with both uploads present yields
two rows, one of each doc_type. -/
theorem apply_documents_shape_witness :
    (apiApply dbEmpty reqBoth FailSpec.noFail).db.documents =
      dbEmpty.documents ++ applyDocs reqBoth.files dbEmpty.nextAppId ∧
    (applyDocs reqBoth.files dbEmpty.nextAppId).countP
      (fun d => decide (d.doc_type = "photo")) ≤ 1 ∧
    (applyDocs reqBoth.files dbEmpty.nextAppId).countP
      (fun d => decide (d.doc_type = "mark10")) ≤ 1 := by
  have h := apply_documents_shape dbEmpty reqBoth FailSpec.noFail (by decide)
  have hcount := h.2.2.2
    (by intro f hf; simp [reqBoth, photoFile, filePhotoW] at hf; simp [← hf, filePhotoW])
    (by intro f hf; simp [reqBoth, mark10File, fileMark10W] at hf; simp [← hf, fileMark10W])
  exact ⟨h.1, hcount.1, hcount.2⟩

/-- Counterexample to C6 as stated: a payload carrying the numeric
amount_applied value 0 — present and well-formed — is stored as null, not
as 0, because the handler computes `data.amount_applied || null` and 0 is
falsy. -/
theorem apply_amount_zero_counterexample :
    payloadAmount0.amount_applied = JSVal.num 0 ∧
    (apiApply dbEmpty reqAmount0 FailSpec.noFail).resp = ApplyResp.ok 1 ∧
    (apiApply dbEmpty reqAmount0 FailSpec.noFail).db.applications.map
      (fun a => a.amount_applied) = [JSVal.null] ∧
    JSVal.null ≠ JSVal.num 0 := by
  refine ⟨rfl, rfl, rfl, by decide⟩

/-- Claim C6 amended: on a successful apply the stored row's amount field
equals the payload's amount_applied value when that value is truthy, and
is null when the field is absent or falsy (null, undefined, the number 0,
or the empty string); the serialized payload is stored alongside it
verbatim. -/
theorem apply_amount_stored (db : DB) (req : ApplyReq) (fs : FailSpec) (p : Payload)
    (hp : req.data = some (JsonData.parsed p))
    (hok : (apiApply db req fs).resp.isSuccess = true) :
    (apiApply db req fs).db.applications = db.applications ++ [mkApplicationRow db p] ∧
    (mkApplicationRow db p).amount_applied =
      (if p.amount_applied.truthy then p.amount_applied else JSVal.null) ∧
    (mkApplicationRow db p).data_json = p.serialized := by
  obtain ⟨p2, hp2, happ, _⟩ := (apply_atomic db req fs).2 hok
  rw [hp] at hp2
  obtain rfl : p = p2 := by injection hp2 with h; injection h
  exact ⟨happ, rfl, rfl⟩

/-- Witness for C6 amended: the spec's example payload with amount 5000
stores the row with amount 5000 and the serialized payload. -/
theorem apply_amount_stored_witness :
    (apiApply dbEmpty reqFull FailSpec.noFail).db.applications =
      dbEmpty.applications ++ [mkApplicationRow dbEmpty payloadFull] ∧
    (mkApplicationRow dbEmpty payloadFull).amount_applied = JSVal.num 5000 := by
  have h := apply_amount_stored dbEmpty reqFull FailSpec.noFail payloadFull rfl (by decide)
  exact ⟨h.1, by decide⟩

/-- Claim C4: approve and reject issue one unconditional status update
and answer with the same fixed success body on every store and identity;
in particular an identity matching no row still gets the success body and
leaves the store unchanged. -/
theorem admin_status_update_unconditional (db : DB) (id : Nat) :
    (apiApprove db id).1 = AdminResp.ok "Trigger fired (if status changed)" ∧
    (apiReject db id).1 = AdminResp.ok "Trigger fired (if status changed)" ∧
    (∀ db2 : DB, ∀ id2 : Nat,
      (apiApprove db id).1 = (apiApprove db2 id2).1 ∧
      (apiReject db id).1 = (apiReject db2 id2).1) ∧
    (apiApprove db id).2.applications = db.applications.map (setStatusRow id "Approved") ∧
    (apiReject db id).2.applications = db.applications.map (setStatusRow id "Rejected") ∧
    ((∀ a ∈ db.applications, a.id ≠ id) →
      (apiApprove db id).2 = db ∧ (apiReject db id).2 = db) := by
  refine ⟨rfl, rfl, fun _ _ => ⟨rfl, rfl⟩, rfl, rfl, fun h => ?_⟩
  have hmap : ∀ st, db.applications.map (setStatusRow id st) = db.applications := by
    intro st
    rw [List.map_congr_left (fun a ha => ?_), List.map_id]
    simp [setStatusRow, h a ha]
  constructor
  · show { db with applications := db.applications.map (setStatusRow id "Approved") } = db
    rw [hmap]
  · show { db with applications := db.applications.map (setStatusRow id "Rejected") } = db
    rw [hmap]

/-- Witness for C4: approving the non-existent identity 5 on an empty
store still answers the success body and changes nothing. -/
theorem admin_status_update_unconditional_witness :
    (apiApprove dbEmpty 5).1 = AdminResp.ok "Trigger fired (if status changed)" ∧
    (apiApprove dbEmpty 5).2 = dbEmpty :=
  ⟨(admin_status_update_unconditional dbEmpty 5).1,
   ((admin_status_update_unconditional dbEmpty 5).2.2.2.2.2
     (by intro a ha; simp [dbEmpty] at ha)).1⟩

/-- Claim C2 (code bug at server.js line 180): the handler builds the
WHERE clauses and fills the params array, but calls allSql without the
array, so a request supplying type and academic_year leaves its
placeholders unbound and is answered 500 instead of the intersection —
even though the store holds a scheme matching both filters; only a
request that pushes no placeholder (no filters, or international alone)
returns rows at all. -/
theorem schemes_conjunctive_filters_bug :
    apiSchemes dbSchemes ⟨none, some "2024", some "merit", none, none⟩ =
      SchemesResp.serverError ∧
    schemeCatA ∈ dbSchemes.schemes ∧
    matchesSchemeFilters ⟨none, some "2024", some "merit", none, none⟩ schemeCatA = true ∧
    apiSchemes dbSchemes ⟨none, none, none, none, none⟩ = SchemesResp.ok [schemeCatA] ∧
    apiSchemes dbSchemes ⟨none, none, none, none, some "1"⟩ = SchemesResp.ok [schemeCatA] := by
  refine ⟨by decide, by decide, by decide, by decide, by decide⟩

/-- Claim C3 (same code bug at server.js line 180): category=A,B builds
an IN clause with two unbound placeholders, so the request is answered
500 rather than the union of the category-A and category-B schemes, even
though the store holds a category-A scheme that the clause semantics
select. -/
theorem schemes_category_union_bug :
    apiSchemes dbSchemes ⟨none, none, none, some "A,B", none⟩ = SchemesResp.serverError ∧
    schemesParamsList ⟨none, none, none, some "A,B", none⟩ = ["A", "B"] ∧
    schemeCatA ∈ dbSchemes.schemes ∧
    matchesSchemeFilters ⟨none, none, none, some "A,B", none⟩ schemeCatA = true := by
  refine ⟨by decide, by decide, by decide, by decide⟩

/-- Claim C7: the admin pending list holds exactly the view rows of the
applications whose status is Pending — each joined with the owning user's
display name/email and the scheme's display name — in ascending
submission-date order (oldest first). -/
theorem admin_pending_list (db : DB) :
    (∀ r, r ∈ apiAdminPendingApplications db ↔
      ∃ a, a ∈ db.applications ∧ a.status = "Pending" ∧ r = adminViewRowOf db a) ∧
    List.Sorted dateOrder (apiAdminPendingApplications db) := by
  constructor
  · intro r
    simp only [apiAdminPendingApplications, v_admin_applications, List.mem_filter,
      List.mem_insertionSort, List.mem_map, decide_eq_true_eq]
    constructor
    · rintro ⟨⟨a, ha, rfl⟩, hst⟩
      exact ⟨a, ha, hst, rfl⟩
    · rintro ⟨a, ha, hst, rfl⟩
      exact ⟨⟨a, ha, rfl⟩, hst⟩
  · exact List.Pairwise.sublist (List.filter_sublist _)
      (List.sorted_insertionSort dateOrder _)

/-- A registration with all required fields and a not-yet-used email
takes the insert branch. -/
theorem apiRegister_fresh (hash : String → String) (db : DB) (inp : RegisterInput)
    (hreq : requiredPresent inp = true)
    (hany : db.users.any (fun u => decide (u.email = inp.email.getD "")) = false) :
    apiRegister hash db inp =
      (RegisterResp.ok db.nextUserId,
       { db with
          users := db.users ++
            [{ id := db.nextUserId
               name := inp.name.getD ""
               email := inp.email.getD ""
               password_hash := hash (inp.password.getD "")
               age := inp.age
               gender := match inp.gender with
                 | some s => if s = "" then none else some s
                 | none => none
               role := "user" }]
          nextUserId := db.nextUserId + 1 }) := by
  have h : (strTruthy inp.name && strTruthy inp.email && strTruthy inp.password) = true := hreq
  unfold apiRegister
  rw [h, hany]
  simp

/-- A registration whose email is already present takes the 409 branch
and writes nothing. -/
theorem apiRegister_existing (hash : String → String) (db : DB) (inp : RegisterInput)
    (hreq : requiredPresent inp = true)
    (hany : db.users.any (fun u => decide (u.email = inp.email.getD "")) = true) :
    apiRegister hash db inp = (RegisterResp.conflict, db) := by
  have h : (strTruthy inp.name && strTruthy inp.email && strTruthy inp.password) = true := hreq
  unfold apiRegister
  rw [h, hany]
  simp

/-- A registration missing a required field takes the 400 branch and
writes nothing. -/
theorem apiRegister_missing (hash : String → String) (db : DB) (inp : RegisterInput)
    (hreq : requiredPresent inp = false) :
    apiRegister hash db inp = (RegisterResp.badRequest, db) := by
  have h : (strTruthy inp.name && strTruthy inp.email && strTruthy inp.password) = false := hreq
  unfold apiRegister
  rw [h]
  simp

/-- Counterexample to C8 as stated: after a successful registration, a
later attempt with the same email but a missing password is answered 400,
not the claimed 409 conflict (it still creates no second record). -/
theorem register_conflict_counterexample :
    dbAfterFirst.users.countP (fun u => decide (u.email = "asha@example.com")) = 1 ∧
    regInput2.email = regInput1.email ∧
    regInput2.password = none ∧
    (apiRegister hashId dbAfterFirst regInput2).1 = RegisterResp.badRequest ∧
    RegisterResp.badRequest ≠ RegisterResp.conflict ∧
    (apiRegister hashId dbAfterFirst regInput2).2 = dbAfterFirst := by
  refine ⟨by decide, rfl, rfl, by decide, by decide, by decide⟩

/-- Claim C8 amended: with all required fields and a not-yet-used email,
registration succeeds and returns the new user id, leaving exactly one
record with that email; any later attempt with the same email and all
required fields present is answered 409, and no later attempt of any
shape creates a second record with that email. -/
theorem register_unique_email (hash : String → String) (db : DB) (inp : RegisterInput)
    (hreq : requiredPresent inp = true)
    (hfresh : ∀ u ∈ db.users, u.email ≠ inp.email.getD "") :
    (apiRegister hash db inp).1 = RegisterResp.ok db.nextUserId ∧
    (apiRegister hash db inp).2.users.countP
      (fun u => decide (u.email = inp.email.getD "")) = 1 ∧
    (∀ inp2 : RegisterInput, ∀ hash2 : String → String, inp2.email = inp.email →
      (requiredPresent inp2 = true →
        (apiRegister hash2 (apiRegister hash db inp).2 inp2).1 = RegisterResp.conflict) ∧
      (apiRegister hash2 (apiRegister hash db inp).2 inp2).2.users.countP
        (fun u => decide (u.email = inp.email.getD "")) = 1) := by
  have hany0 : db.users.any (fun u => decide (u.email = inp.email.getD "")) = false := by
    simp only [List.any_eq_false, decide_eq_true_eq]
    exact hfresh
  have h1 := apiRegister_fresh hash db inp hreq hany0
  have hzero : db.users.countP (fun u => decide (u.email = inp.email.getD "")) = 0 := by
    rw [List.countP_eq_zero]
    intro u hu
    simp [hfresh u hu]
  have hcount : (apiRegister hash db inp).2.users.countP
      (fun u => decide (u.email = inp.email.getD "")) = 1 := by
    rw [h1]
    simp [List.countP_append, List.countP_cons, hzero]
  refine ⟨by rw [h1], hcount, ?_⟩
  intro inp2 hash2 hmail
  have hany1 : (apiRegister hash db inp).2.users.any
      (fun u => decide (u.email = inp2.email.getD "")) = true := by
    rw [h1, hmail]
    simp
  constructor
  · intro hreq2
    rw [apiRegister_existing hash2 _ inp2 hreq2 hany1]
  · cases h2 : requiredPresent inp2
    · rw [apiRegister_missing hash2 _ inp2 h2]
      exact hcount
    · rw [apiRegister_existing hash2 _ inp2 h2 hany1]
      exact hcount

/-- Witness for C8 amended: registering a concrete user on the empty
store succeeds with id 1, and repeating the same complete input is
answered 409. -/
theorem register_unique_email_witness :
    (apiRegister hashId dbEmpty regInput1).1 = RegisterResp.ok 1 ∧
    (apiRegister hashId (apiRegister hashId dbEmpty regInput1).2 regInput1).1 =
      RegisterResp.conflict := by
  have h := register_unique_email hashId dbEmpty regInput1 (by decide)
    (by intro u hu; simp [dbEmpty] at hu)
  exact ⟨h.1, (h.2.2 regInput1 hashId rfl).1 (by decide)⟩

end Scholarship
